import Mathlib

/-!
Shallow embedding of the metrics/forecast pipeline of `streamlit_app.py`
(sales-funnel dashboard): record model, `calculate_metrics`,
`calculate_seasonal_patterns`, `export_to_excel`, the CSV round trip, the
forecast block of tab 3, and the combine step of tab 1.
-/

/-- One monthly funnel observation: a row of the pandas DataFrame.
`month` is modelled as a calendar pair (year, month number 1..12); `cost`
is optional, as the manual-entry row carries no cost column. -/
structure Record where
  year : Nat
  mon : Nat
  leads : Nat
  appointments : Nat
  closings : Nat
  cost : Option Nat
deriving Repr, DecidableEq

/-- Abbreviated month names, as produced by `strftime('%b')`. -/
def monthAbbrevs : List String :=
  ["Jan", "Feb", "Mar", "Apr", "May", "Jun",
   "Jul", "Aug", "Sep", "Oct", "Nov", "Dec"]

/-- Full month names, as in `calendar.month_name[1:]`. -/
def monthFullNames : List String :=
  ["January", "February", "March", "April", "May", "June",
   "July", "August", "September", "October", "November", "December"]

/-- `strftime('%b')` applied to a record's month. -/
def monthAbbrev (m : Nat) : String := monthAbbrevs.getD (m - 1) ""

/-- Two-digit year as printed by `strftime('%y')`. -/
def twoDigitYear (y : Nat) : String :=
  (if y % 100 < 10 then "0" else "") ++ Nat.repr (y % 100)

/-- `strftime('%b %y')`: the month label used for Best/Worst Month. -/
def monthLabel (r : Record) : String :=
  monthAbbrev r.mon ++ " " ++ twoDigitYear r.year

def totalLeads (df : List Record) : Nat := (df.map Record.leads).sum

def totalAppointments (df : List Record) : Nat :=
  (df.map Record.appointments).sum

def totalClosings (df : List Record) : Nat := (df.map Record.closings).sum

/-- Scan of `idxmaxGo` below: pandas `Series.idxmax` keeps the first
occurrence of the running maximum (strict improvement to move). -/
def idxmaxGo : List Nat → Nat → Nat → Nat → Nat
  | [], bi, _, _ => bi
  | v :: vs, bi, bv, i =>
    if bv < v then idxmaxGo vs i v (i + 1) else idxmaxGo vs bi bv (i + 1)

/-- pandas `Series.idxmax`: index of the first maximal value; raises
(`none`) on an empty series. -/
def idxmax : List Nat → Option Nat
  | [] => none
  | v :: vs => some (idxmaxGo vs 0 v 1)

/-- Scan for `idxmin`, symmetric to `idxmaxGo`. -/
def idxminGo : List Nat → Nat → Nat → Nat → Nat
  | [], bi, _, _ => bi
  | v :: vs, bi, bv, i =>
    if v < bv then idxminGo vs i v (i + 1) else idxminGo vs bi bv (i + 1)

/-- pandas `Series.idxmin`: index of the first minimal value; raises
(`none`) on an empty series. -/
def idxmin : List Nat → Option Nat
  | [] => none
  | v :: vs => some (idxminGo vs 0 v 1)

/-- A value of the metrics dict: int column sums, float rates, or string
month labels. -/
inductive MetricValue
  | int (n : Nat)
  | flt (q : Rat)
  | str (s : String)
deriving Repr, DecidableEq

instance : Inhabited Record := ⟨⟨0, 0, 0, 0, 0, none⟩⟩

/-- `calculate_metrics(df)` from `streamlit_app.py` lines 119-131.
Each rate is guarded inline (`... if sum > 0 else 0`); Best/Worst Month
use `idxmax`/`idxmin` on the closings column, which raise on an empty
frame (modelled by `none`). -/
def calculate_metrics (df : List Record) : Option (List (String × MetricValue)) :=
  match idxmax (df.map Record.closings), idxmin (df.map Record.closings) with
  | some imax, some imin =>
    some
      [("Total Leads", .int (totalLeads df)),
       ("Total Appointments", .int (totalAppointments df)),
       ("Total Closings", .int (totalClosings df)),
       ("Lead to Appointment Rate",
        .flt (if 0 < totalLeads df then
                (totalAppointments df : Rat) / (totalLeads df : Rat) * 100
              else 0)),
       ("Appointment to Close Rate",
        .flt (if 0 < totalAppointments df then
                (totalClosings df : Rat) / (totalAppointments df : Rat) * 100
              else 0)),
       ("Overall Close Rate",
        .flt (if 0 < totalLeads df then
                (totalClosings df : Rat) / (totalLeads df : Rat) * 100
              else 0)),
       ("Best Month (Closings)", .str (monthLabel (df.getD imax default))),
       ("Worst Month (Closings)", .str (monthLabel (df.getD imin default)))]
  | _, _ => none

/-- The shared safe-ratio rule as §4.2 of the spec words it:
`rate = numerator/denominator if denominator > 0 else 0`. -/
def safeDiv (num den : Rat) : Rat := if 0 < den then num / den else 0

/-- A pandas DataFrame as the export path sees it: the funnel rows plus
the `month_name` column that `calculate_seasonal_patterns` writes in
place (absent = `none`). -/
structure Df where
  rows : List Record
  month_name : Option (List String)
deriving Repr, DecidableEq

/-- Mean of `metric` over the rows whose `month_name` value equals `key`
(`df.groupby('month_name')[metric].mean()` looked up at one key); `none`
models the NaN that `reindex` fills in for a key with no group. -/
def groupMean (rows : List Record) (metric : Record → Nat) (key : String) :
    Option Rat :=
  let grp := rows.filter fun r => monthAbbrev r.mon = key
  if grp.isEmpty then none
  else some ((grp.map fun r => (metric r : Rat)).sum / (grp.length : Rat))

/-- `calculate_seasonal_patterns(df, metric)` (lines 25-29): writes the
`month_name` column into the passed frame in place, then groups the metric
by that column and reindexes the group means by the full month names of
`calendar.month_name[1:]`. Returns the updated frame state together with
the reindexed series. -/
def calculate_seasonal_patterns (df : Df) (metric : Record → Nat) :
    Df × List (Option Rat) :=
  let df' : Df := { df with month_name := some (df.rows.map fun r => monthAbbrev r.mon) }
  (df', monthFullNames.map (groupMean df'.rows metric))

/-- One row of the "seasonal patterns" sheet. -/
structure PatternsRow where
  month : String
  avgLeads : Option Rat
  avgAppointments : Option Rat
  avgClosings : Option Rat
deriving Repr, DecidableEq

/-- Content of one sheet of the exported workbook. -/
inductive SheetContent
  | histTable (rows : List Record)
  | kvTable (cells : List (String × Rat))
  | patternsTable (cells : List PatternsRow)
deriving Repr, DecidableEq

/-- `export_to_excel(df, forecasts)` (lines 31-51): the historical sheet is
written from the frame as passed in (before any `month_name` write), the
forecasts dict becomes a table, and the patterns sheet is assembled from
three `calculate_seasonal_patterns` calls whose in-place column writes are
threaded through. Returns the workbook and the final state of the frame
the caller passed in. -/
def export_to_excel (df : Df) (forecasts : List (String × Rat)) :
    List (String × SheetContent) × Df :=
  let hist := SheetContent.histTable df.rows
  let (df1, avgL) := calculate_seasonal_patterns df Record.leads
  let (df2, avgA) := calculate_seasonal_patterns df1 Record.appointments
  let (df3, avgC) := calculate_seasonal_patterns df2 Record.closings
  let pats := (List.range 12).map fun i =>
    PatternsRow.mk (monthFullNames.getD i "") (avgL.getD i none)
      (avgA.getD i none) (avgC.getD i none)
  ([("historical data", hist), ("forecasts", .kvTable forecasts),
    ("seasonal patterns", .patternsTable pats)], df3)

/-- `'0'..'9'` for a digit value below 10. -/
def digitChar (d : Nat) : Char := Char.ofNat (48 + d)

/-- Inverse of `digitChar` on digit characters. -/
def charToDigit (c : Char) : Option Nat :=
  if 48 ≤ c.toNat ∧ c.toNat ≤ 57 then some (c.toNat - 48) else none

/-- Decimal printing of a natural number, most significant digit first. -/
def natToChars (n : Nat) : List Char :=
  if n = 0 then ['0'] else ((Nat.digits 10 n).map digitChar).reverse

/-- Value of a decimal digit list, most significant digit first. -/
def digitsVal (ds : List Nat) : Nat := ds.foldl (fun a d => a * 10 + d) 0

/-- Parse a non-empty all-digit character list as a natural number. -/
def charsToNat (cs : List Char) : Option Nat :=
  if cs.isEmpty then none else (cs.mapM charToDigit).map digitsVal

/-- Split a character list at the first dash. -/
def splitDash : List Char → Option (List Char × List Char)
  | [] => none
  | c :: cs =>
    if c = '-' then some ([], cs)
    else (splitDash cs).map fun p => (c :: p.1, p.2)

/-- The `month` cell `to_csv` writes: `"Y-M"` — pandas timestamps print as
dash-separated ISO strings; the model keeps year and month, the
granularity the pipeline uses. -/
def monthCell (r : Record) : String := ⟨natToChars r.year ++ '-' :: natToChars r.mon⟩

/-- `pd.to_datetime` on one cell: digits, a dash, digits, and a valid
calendar month number; otherwise unparseable. -/
def parseMonthCell (s : String) : Option (Nat × Nat) :=
  match splitDash s.data with
  | none => none
  | some (ys, ms) =>
    match charsToNat ys, charsToNat ms with
    | some y, some m => if 1 ≤ m ∧ m ≤ 12 then some (y, m) else none
    | _, _ => none

/-- The `cost` cell: empty for a missing value (NaN), digits otherwise. -/
def costCell : Option Nat → String
  | none => ""
  | some c => ⟨natToChars c⟩

/-- `pd.read_csv` on a `cost` cell: empty reads back as NaN. -/
def parseCostCell (s : String) : Option (Option Nat) :=
  if s = "" then some none else (charsToNat s.data).map some

/-- Column order `to_csv` writes for the combined table. -/
def csvHeader : List String := ["month", "leads", "appointments", "closings", "cost"]

/-- `historical_data.to_csv(index=False)` (line 365) at row/cell
granularity: a header row, then one row of printed cells per record. -/
def to_csv (df : List Record) : List (List String) :=
  csvHeader ::
    df.map fun r =>
      [monthCell r, ⟨natToChars r.leads⟩, ⟨natToChars r.appointments⟩,
       ⟨natToChars r.closings⟩, costCell r.cost]

/-- A row after `pd.read_csv`: the month cell still a string, the numeric
columns parsed. -/
structure RawRow where
  monthStr : String
  leads : Nat
  appointments : Nat
  closings : Nat
  cost : Option Nat
deriving Repr, DecidableEq

/-- Parse one data row of the uploaded table. -/
def readRow (cells : List String) : Except String RawRow :=
  match cells with
  | [m, l, a, c, k] =>
    match charsToNat l.data, charsToNat a.data, charsToNat c.data,
        parseCostCell k with
    | some l', some a', some c', some k' => .ok ⟨m, l', a', c', k'⟩
    | _, _, _, _ => .error "DataLoadError: non-numeric cell"
  | _ => .error "DataLoadError: wrong column count"

/-- Parse every data row, failing on the first malformed one. -/
def readRows : List (List String) → Except String (List RawRow)
  | [] => .ok []
  | row :: rest =>
    match readRow row, readRows rest with
    | .ok r, .ok rs => .ok (r :: rs)
    | .error e, _ => .error e
    | _, .error e => .error e

/-- `pd.to_datetime(column)` with the default `errors='raise'` (line 196):
the whole conversion fails on the first unparseable value; no row is
dropped. -/
def to_datetime : List String → Except String (List (Nat × Nat))
  | [] => .ok []
  | s :: rest =>
    match parseMonthCell s, to_datetime rest with
    | some ym, .ok ms => .ok (ym :: ms)
    | none, _ => .error "DataLoadError: unparseable month"
    | _, .error e => .error e

/-- Reassemble records from the converted month column and the raw rows. -/
def mkRecords (ms : List (Nat × Nat)) (rs : List RawRow) : List Record :=
  List.zipWith
    (fun (ym : Nat × Nat) (r : RawRow) =>
      Record.mk ym.1 ym.2 r.leads r.appointments r.closings r.cost) ms rs

/-- Upload load path (lines 189-196): `pd.read_csv` of the table, then
`pd.to_datetime` over the whole `month` column. -/
def loadPath (table : List (List String)) : Except String (List Record) :=
  match table with
  | [] => .error "DataLoadError: empty file"
  | hdr :: rows =>
    if hdr = csvHeader then
      match readRows rows with
      | .error e => .error e
      | .ok raws =>
        match to_datetime (raws.map RawRow.monthStr) with
        | .error e => .error e
        | .ok ms => .ok (mkRecords ms raws)
    else .error "DataLoadError: bad header"

/-- Linear model value at a query point. -/
def predictLin (b0 b1 b2 : Rat) (leads appointments : Rat) : Rat :=
  b0 + b1 * leads + b2 * appointments

/-- In-sample sum of squared errors of a candidate coefficient triple. -/
def sse (df : List Record) (b0 b1 b2 : Rat) : Rat :=
  (df.map fun r =>
    ((r.closings : Rat) -
      predictLin b0 b1 b2 (r.leads : Rat) (r.appointments : Rat)) ^ 2).sum

/-- Modelled from the spec: `sklearn.linear_model.LinearRegression.fit`
(third-party library code, not in this repository) performs ordinary least
squares — fitted coefficients minimise the in-sample sum of squared
errors over the record set. -/
def IsOLSFit (df : List Record) (b0 b1 b2 : Rat) : Prop :=
  ∀ c0 c1 c2 : Rat, sse df b0 b1 b2 ≤ sse df c0 c1 c2

/-- Tab 3 lines 303-305: prediction of the fitted model at the manual
query point, clamped at 0, and revenue scaled by the caller-supplied
average revenue per closing. Returns (forecasted closings, forecasted
revenue). -/
def forecastPoint (b0 b1 b2 : Rat) (numLeads numAppointments : Nat)
    (averageRevenuePerClosing : Rat) : Rat × Rat :=
  let forecastedClosings :=
    max 0 (predictLin b0 b1 b2 (numLeads : Rat) (numAppointments : Rat))
  (forecastedClosings, forecastedClosings * averageRevenuePerClosing)

/-- Tab 3 line 295: the fit-and-predict block runs iff the combined table
is non-empty; no other guard exists and no `InsufficientDataError` is ever
raised. -/
def fitProceeds (df : List Record) : Bool := !df.isEmpty

/-- The manual-entry row of lines 205-210 / 215-220: month is the current
timestamp and no cost column is present. -/
def manualRecord (nowYear nowMon numLeads numAppointments numClosings : Nat) :
    Record :=
  ⟨nowYear, nowMon, numLeads, numAppointments, numClosings, none⟩

/-- Lines 202-220: concatenate the manual record after the uploaded batch,
or use it alone when nothing non-empty was uploaded. -/
def combineData (uploaded : List Record) (manual : Record) : List Record :=
  if uploaded.isEmpty then [manual] else uploaded ++ [manual]

/-- Tab 4 line 365: `historical_data.to_csv(...)` reads the frame and
returns the bytes; the frame state is returned as it was passed. -/
def to_csvState (df : Df) : List (List String) × Df := (to_csv df.rows, df)

/-! ## Helper lemmas -/

/-- Concrete evaluation of `calculate_metrics` on the single-record
scenario of §8 of the spec. -/
theorem calculate_metrics_jan :
    calculate_metrics [⟨2024, 1, 100, 50, 25, some 0⟩] =
      some
        [("Total Leads", .int 100),
         ("Total Appointments", .int 50),
         ("Total Closings", .int 25),
         ("Lead to Appointment Rate", .flt 50),
         ("Appointment to Close Rate", .flt 50),
         ("Overall Close Rate", .flt 25),
         ("Best Month (Closings)", .str "Jan 24"),
         ("Worst Month (Closings)", .str "Jan 24")] := by
  norm_num [calculate_metrics, totalLeads, totalAppointments, totalClosings,
    idxmax, idxmaxGo, idxmin, idxminGo, monthLabel, monthAbbrev, monthAbbrevs,
    twoDigitYear]
  decide

/-- `calculate_metrics` succeeds on every non-empty record set. -/
theorem calculate_metrics_isSome_of_ne_nil (df : List Record) (h : df ≠ []) :
    (calculate_metrics df).isSome := by
  cases df with
  | nil => exact absurd rfl h
  | cons r rs => rfl

/-- A sum of squared residuals is non-negative. -/
theorem sse_nonneg (df : List Record) (b0 b1 b2 : Rat) :
    0 ≤ sse df b0 b1 b2 := by
  refine List.sum_nonneg ?_
  intro x hx
  obtain ⟨r, -, rfl⟩ := List.mem_map.mp hx
  exact sq_nonneg _

/-- An exact (zero-residual) fit is a least-squares fit: witness data for
the forecast theorem. -/
theorem olsExactFit :
    IsOLSFit [⟨2024, 1, 1, 0, 1, none⟩, ⟨2024, 2, 2, 0, 2, none⟩] 0 1 0 := by
  intro c0 c1 c2
  have h0 : sse [⟨2024, 1, 1, 0, 1, none⟩, ⟨2024, 2, 2, 0, 2, none⟩] 0 1 0 = 0 := by
    norm_num [sse, predictLin]
  rw [h0]
  exact sse_nonneg _ _ _ _

/-! ## Claim theorems -/

/-- Claim C4: for every non-empty record set and OLS-fitted coefficients,
the forecast block returns `forecasted_closings = max(0, prediction)`,
hence non-negative, and `forecasted_revenue = forecasted_closings *
average_revenue_per_closing` with the average revenue a caller-supplied
scalar. -/
theorem forecast_nonneg_and_revenue :
    ∀ (df : List Record) (b0 b1 b2 : Rat), df ≠ [] →
      IsOLSFit df b0 b1 b2 →
      ∀ (numLeads numAppointments : Nat) (arpc : Rat),
        (forecastPoint b0 b1 b2 numLeads numAppointments arpc).1 =
            max 0 (predictLin b0 b1 b2 (numLeads : Rat) (numAppointments : Rat)) ∧
          0 ≤ (forecastPoint b0 b1 b2 numLeads numAppointments arpc).1 ∧
          (forecastPoint b0 b1 b2 numLeads numAppointments arpc).2 =
            (forecastPoint b0 b1 b2 numLeads numAppointments arpc).1 * arpc := by
  intro df b0 b1 b2 _ _ numLeads numAppointments arpc
  exact ⟨rfl, le_max_left 0 _, rfl⟩

/-- Witness for C4: a two-record set with an exact least-squares fit, and
the forecast at the default query point (100 leads, 50 appointments,
average revenue 10000). -/
theorem forecast_nonneg_and_revenue_witness :
    (([⟨2024, 1, 1, 0, 1, none⟩, ⟨2024, 2, 2, 0, 2, none⟩] : List Record) ≠ [] ∧
        IsOLSFit [⟨2024, 1, 1, 0, 1, none⟩, ⟨2024, 2, 2, 0, 2, none⟩] 0 1 0) ∧
      ((forecastPoint 0 1 0 100 50 10000).1 =
          max 0 (predictLin 0 1 0 (100 : Rat) (50 : Rat)) ∧
        0 ≤ (forecastPoint 0 1 0 100 50 10000).1 ∧
        (forecastPoint 0 1 0 100 50 10000).2 =
          (forecastPoint 0 1 0 100 50 10000).1 * 10000) :=
  ⟨⟨by decide, olsExactFit⟩,
    forecast_nonneg_and_revenue _ 0 1 0 (by decide) olsExactFit 100 50 10000⟩

/-- Counterexample to claim C5: a single-record set (fewer than 2
records) passes the tab-3 guard, so the code fits the regression instead
of rejecting with `InsufficientDataError`. -/
theorem single_record_fit_proceeds :
    fitProceeds [⟨2024, 1, 100, 50, 25, none⟩] = true := rfl

/-- Claim C5 (amended): the only record sets the forecast block rejects
are the empty ones (skipped with a warning); a set with one record is
silently fitted, and no `InsufficientDataError` exists in the code. -/
theorem fit_guard_only_empty :
    ∀ df : List Record, fitProceeds df = false ↔ df = [] := by
  intro df
  cases df <;> simp [fitProceeds]

/-- Counterexample to claim C8: `export_to_excel` is not side-effect-free
on the frame passed in — it returns the frame with a `month_name` column
it did not have before. -/
theorem export_mutates_frame :
    (export_to_excel ⟨[⟨2024, 1, 100, 50, 25, none⟩], none⟩
          [("Forecasted Closings", 10), ("Forecasted Revenue", 100000)]).2 ≠
      ⟨[⟨2024, 1, 100, 50, 25, none⟩], none⟩ := by
  decide

/-- Claim C8 (amended): `to_csv` leaves the frame unchanged, while
`export_to_excel`'s only effect on the caller's frame is writing the
`month_name` column (the `'%b'` names of its rows), via the in-place
column assignment inside `calculate_seasonal_patterns`. -/
theorem export_mutation_characterized :
    ∀ (df : Df) (forecasts : List (String × Rat)),
      (export_to_excel df forecasts).2 =
          { df with month_name := some (df.rows.map fun r => monthAbbrev r.mon) } ∧
        (to_csvState df).2 = df := by
  intro df forecasts
  exact ⟨rfl, rfl⟩

/-- Claim C10: the combined table of tab 1 is always the uploaded batch
followed by exactly one synthetic manual record (current timestamp, the
manual funnel counts, no cost), so it is never empty, and the downstream
metrics call and forecast guard both operate on at least one record. -/
theorem combined_data_nonempty :
    ∀ (uploaded : List Record) (y mo numLeads numAppointments numClosings : Nat),
      combineData uploaded (manualRecord y mo numLeads numAppointments numClosings) =
          uploaded ++ [manualRecord y mo numLeads numAppointments numClosings] ∧
        combineData uploaded (manualRecord y mo numLeads numAppointments numClosings) ≠ [] ∧
        (manualRecord y mo numLeads numAppointments numClosings).cost = none ∧
        (calculate_metrics
          (combineData uploaded (manualRecord y mo numLeads numAppointments numClosings))).isSome ∧
        fitProceeds
          (combineData uploaded (manualRecord y mo numLeads numAppointments numClosings)) = true := by
  intro uploaded y mo numLeads numAppointments numClosings
  have heq : combineData uploaded (manualRecord y mo numLeads numAppointments numClosings) =
      uploaded ++ [manualRecord y mo numLeads numAppointments numClosings] := by
    cases uploaded <;> simp [combineData]
  have hne : combineData uploaded (manualRecord y mo numLeads numAppointments numClosings) ≠ [] := by
    rw [heq]
    simp
  refine ⟨heq, hne, rfl, calculate_metrics_isSome_of_ne_nil _ hne, ?_⟩
  cases h : combineData uploaded (manualRecord y mo numLeads numAppointments numClosings) with
  | nil => exact absurd h hne
  | cons a l => rfl

/-- Counterexample to claim C3: the metrics bundle of the single-record
scenario carries exactly the eight dict keys of the source; no
`cost_per_lead`, `cost_per_appointment` or `cost_per_closing` entry
exists anywhere in `calculate_metrics`. -/
theorem metrics_bundle_no_cost_keys :
    (((calculate_metrics [⟨2024, 1, 100, 50, 25, some 0⟩]).getD []).map
          Prod.fst =
        ["Total Leads", "Total Appointments", "Total Closings",
         "Lead to Appointment Rate", "Appointment to Close Rate",
         "Overall Close Rate", "Best Month (Closings)",
         "Worst Month (Closings)"]) ∧
      "cost_per_lead" ∉
        ((calculate_metrics [⟨2024, 1, 100, 50, 25, some 0⟩]).getD []).map Prod.fst ∧
      "cost_per_appointment" ∉
        ((calculate_metrics [⟨2024, 1, 100, 50, 25, some 0⟩]).getD []).map Prod.fst ∧
      "cost_per_closing" ∉
        ((calculate_metrics [⟨2024, 1, 100, 50, 25, some 0⟩]).getD []).map Prod.fst := by
  refine ⟨rfl, ?_, ?_, ?_⟩ <;> decide

/-- Each inline guard of `calculate_metrics` is an instance of the
spec's shared safe-ratio rule, scaled to a percentage. -/
theorem safeDiv_mul_100 (a l : Nat) :
    (if 0 < l then (a : Rat) / (l : Rat) * 100 else 0) =
      safeDiv (a : Rat) (l : Rat) * 100 := by
  by_cases h : 0 < l
  · simp [safeDiv, h, Nat.cast_pos.mpr h]
  · have hl : l = 0 := Nat.eq_zero_of_not_pos h
    subst hl
    simp [safeDiv]

/-- Claim C3 (amended): `calculate_metrics` returns no cost metrics at
all — its bundle always has exactly the eight keys of the source dict —
and on the single January record (100 leads, 50 appointments, 25
closings, cost 0) it reports Total Leads = 100 and Overall Close
Rate = 25. -/
theorem calculate_metrics_keys_and_jan_totals :
    (∀ (df : List Record) (m : List (String × MetricValue)),
        calculate_metrics df = some m →
          m.map Prod.fst =
            ["Total Leads", "Total Appointments", "Total Closings",
             "Lead to Appointment Rate", "Appointment to Close Rate",
             "Overall Close Rate", "Best Month (Closings)",
             "Worst Month (Closings)"]) ∧
      ((calculate_metrics [⟨2024, 1, 100, 50, 25, some 0⟩]).getD []).lookup
          "Total Leads" = some (.int 100) ∧
      ((calculate_metrics [⟨2024, 1, 100, 50, 25, some 0⟩]).getD []).lookup
          "Overall Close Rate" = some (.flt 25) := by
  refine ⟨?_, ?_, ?_⟩
  · intro df m h
    cases df with
    | nil => exact absurd h (by simp [calculate_metrics, idxmax])
    | cons r rs =>
      have h' : some (((calculate_metrics (r :: rs)).getD [])) = some m := by
        rw [← h]
        rfl
      injection h' with h''
      rw [← h'']
      rfl
  · rw [calculate_metrics_jan]
    rfl
  · rw [calculate_metrics_jan]
    rfl

/-- Witness for C3 (amended): the key list instantiated at the January
record bundle. -/
theorem calculate_metrics_keys_witness :
    calculate_metrics [⟨2024, 1, 100, 50, 25, some 0⟩] =
        some
          [("Total Leads", .int 100),
           ("Total Appointments", .int 50),
           ("Total Closings", .int 25),
           ("Lead to Appointment Rate", .flt 50),
           ("Appointment to Close Rate", .flt 50),
           ("Overall Close Rate", .flt 25),
           ("Best Month (Closings)", .str "Jan 24"),
           ("Worst Month (Closings)", .str "Jan 24")] ∧
      ([("Total Leads", MetricValue.int 100),
        ("Total Appointments", .int 50),
        ("Total Closings", .int 25),
        ("Lead to Appointment Rate", .flt 50),
        ("Appointment to Close Rate", .flt 50),
        ("Overall Close Rate", .flt 25),
        ("Best Month (Closings)", .str "Jan 24"),
        ("Worst Month (Closings)", .str "Jan 24")].map Prod.fst =
        ["Total Leads", "Total Appointments", "Total Closings",
         "Lead to Appointment Rate", "Appointment to Close Rate",
         "Overall Close Rate", "Best Month (Closings)",
         "Worst Month (Closings)"]) :=
  ⟨calculate_metrics_jan,
    calculate_metrics_keys_and_jan_totals.1 [⟨2024, 1, 100, 50, 25, some 0⟩] _
      calculate_metrics_jan⟩

/-- Counterexample to claim C1: on the empty record set,
`calculate_metrics` does not return a zero-valued bundle — the
`idxmax`/`idxmin` lookups for Best/Worst Month raise (modelled by
`none`), so the call fails with an exception. -/
theorem calculate_metrics_empty_raises :
    calculate_metrics [] = none ∧
      ∀ m : List (String × MetricValue), calculate_metrics [] ≠ some m := by
  refine ⟨rfl, ?_⟩
  intro m h
  exact Option.noConfusion h

/-- Claim C1 (amended): every ratio `calculate_metrics` produces follows
the shared safe-ratio rule (scaled by 100), but on the empty record set
the function raises via `idxmax` of an empty series instead of returning
zeros, and no cost fields exist in the bundle. -/
theorem calculate_metrics_safe_rates :
    (∀ df : List Record, df ≠ [] →
        ∃ m, calculate_metrics df = some m ∧
          m.lookup "Lead to Appointment Rate" =
            some (.flt (safeDiv ((totalAppointments df : Nat) : Rat)
              ((totalLeads df : Nat) : Rat) * 100)) ∧
          m.lookup "Appointment to Close Rate" =
            some (.flt (safeDiv ((totalClosings df : Nat) : Rat)
              ((totalAppointments df : Nat) : Rat) * 100)) ∧
          m.lookup "Overall Close Rate" =
            some (.flt (safeDiv ((totalClosings df : Nat) : Rat)
              ((totalLeads df : Nat) : Rat) * 100))) ∧
      calculate_metrics [] = none := by
  refine ⟨?_, rfl⟩
  intro df h
  cases df with
  | nil => exact absurd rfl h
  | cons r rs =>
    refine ⟨_, rfl, ?_, ?_, ?_⟩ <;>
      · rw [← safeDiv_mul_100]
        rfl

/-- Witness for C1 (amended): the safe-ratio form of the three rates at
the single January record. -/
theorem calculate_metrics_safe_rates_witness :
    (([⟨2024, 1, 100, 50, 25, some 0⟩] : List Record) ≠ []) ∧
      ∃ m, calculate_metrics [⟨2024, 1, 100, 50, 25, some 0⟩] = some m ∧
        m.lookup "Lead to Appointment Rate" =
          some (.flt (safeDiv
            ((totalAppointments [⟨2024, 1, 100, 50, 25, some 0⟩] : Nat) : Rat)
            ((totalLeads [⟨2024, 1, 100, 50, 25, some 0⟩] : Nat) : Rat) * 100)) ∧
        m.lookup "Appointment to Close Rate" =
          some (.flt (safeDiv
            ((totalClosings [⟨2024, 1, 100, 50, 25, some 0⟩] : Nat) : Rat)
            ((totalAppointments [⟨2024, 1, 100, 50, 25, some 0⟩] : Nat) : Rat) * 100)) ∧
        m.lookup "Overall Close Rate" =
          some (.flt (safeDiv
            ((totalClosings [⟨2024, 1, 100, 50, 25, some 0⟩] : Nat) : Rat)
            ((totalLeads [⟨2024, 1, 100, 50, 25, some 0⟩] : Nat) : Rat) * 100)) :=
  ⟨by decide, calculate_metrics_safe_rates.1 [⟨2024, 1, 100, 50, 25, some 0⟩] (by decide)⟩

/-- Claim C2 (code bug, evaluated at the failing input): exporting a frame
holding one January record with 100 leads produces the three sheets with
the specified names and a twelve-row "seasonal patterns" sheet, but every
average cell of that sheet is NaN (`none`) — the group keys are the
abbreviated `'%b'` month names while `reindex` asks for the full
`calendar.month_name` names — even though the January group mean of leads
in the very same frame is 100. -/
theorem export_patterns_all_nan :
    (export_to_excel ⟨[⟨2024, 1, 100, 50, 25, none⟩], none⟩
          [("Forecasted Closings", 10), ("Forecasted Revenue", 100000)]).1 =
        [("historical data", .histTable [⟨2024, 1, 100, 50, 25, none⟩]),
         ("forecasts",
          .kvTable [("Forecasted Closings", 10), ("Forecasted Revenue", 100000)]),
         ("seasonal patterns",
          .patternsTable
            [⟨"January", none, none, none⟩, ⟨"February", none, none, none⟩,
             ⟨"March", none, none, none⟩, ⟨"April", none, none, none⟩,
             ⟨"May", none, none, none⟩, ⟨"June", none, none, none⟩,
             ⟨"July", none, none, none⟩, ⟨"August", none, none, none⟩,
             ⟨"September", none, none, none⟩, ⟨"October", none, none, none⟩,
             ⟨"November", none, none, none⟩, ⟨"December", none, none, none⟩])] ∧
      groupMean [⟨2024, 1, 100, 50, 25, none⟩] Record.leads "Jan" = some 100 := by
  constructor
  · rfl
  · norm_num [groupMean, monthAbbrev, monthAbbrevs]

/-- Invariant proof for the `idxmax` scan: starting from a best index
`bi < i` whose value `bv` dominates the prefix before `i` strictly after
`bi`, the scan over the rest of the list lands on the first index of the
maximum of the whole list. -/
theorem idxmaxGo_spec (l : List Nat) :
    ∀ (vs : List Nat) (bi bv i : Nat),
      i ≤ l.length → l.drop i = vs → bi < i → l.getD bi 0 = bv →
      (∀ k, k < i → l.getD k 0 ≤ bv) → (∀ k, k < bi → l.getD k 0 < bv) →
      idxmaxGo vs bi bv i < l.length ∧
        (∀ k, k < l.length → l.getD k 0 ≤ l.getD (idxmaxGo vs bi bv i) 0) ∧
        (∀ k, k < idxmaxGo vs bi bv i →
          l.getD k 0 < l.getD (idxmaxGo vs bi bv i) 0) := by
  intro vs
  induction vs with
  | nil =>
    intro bi bv i hil hdrop hbi hbv hmax hfirst
    have hlen : l.length ≤ i := List.drop_eq_nil_iff.mp hdrop
    refine ⟨?_, ?_, ?_⟩
    · show bi < l.length
      omega
    · intro k hk
      show l.getD k 0 ≤ l.getD bi 0
      rw [hbv]
      exact hmax k (by omega)
    · intro k hk
      show l.getD k 0 < l.getD bi 0
      rw [hbv]
      exact hfirst k hk
  | cons v vs' ih =>
    intro bi bv i hil hdrop hbi hbv hmax hfirst
    have hi : i < l.length := by
      rcases Nat.lt_or_ge i l.length with h | h
      · exact h
      · rw [List.drop_eq_nil_iff.mpr h] at hdrop
        exact List.noConfusion hdrop
    have hcons := List.drop_eq_getElem_cons (n := i) (l := l) hi
    rw [hdrop] at hcons
    injection hcons with hv hvs'
    have hgetDi : l.getD i 0 = v := by
      rw [List.getD_eq_getElem?_getD, List.getElem?_eq_getElem hi]
      simp [hv]
    by_cases hlt : bv < v
    · have hrec := ih i v (i + 1) (by omega) hvs'.symm (by omega) hgetDi
        (by
          intro k hk
          rcases Nat.lt_or_ge k i with h | h
          · exact le_trans (hmax k h) (le_of_lt hlt)
          · have hki : k = i := by omega
            subst hki
            exact le_of_eq hgetDi)
        (by
          intro k hk
          exact lt_of_le_of_lt (hmax k hk) hlt)
      simpa only [idxmaxGo, if_pos hlt] using hrec
    · have hrec := ih bi bv (i + 1) (by omega) hvs'.symm (by omega) hbv
        (by
          intro k hk
          rcases Nat.lt_or_ge k i with h | h
          · exact hmax k h
          · have hki : k = i := by omega
            subst hki
            rw [hgetDi]
            omega)
        hfirst
      simpa only [idxmaxGo, if_neg hlt] using hrec

/-- Invariant proof for the `idxmin` scan, mirror image of
`idxmaxGo_spec`. -/
theorem idxminGo_spec (l : List Nat) :
    ∀ (vs : List Nat) (bi bv i : Nat),
      i ≤ l.length → l.drop i = vs → bi < i → l.getD bi 0 = bv →
      (∀ k, k < i → bv ≤ l.getD k 0) → (∀ k, k < bi → bv < l.getD k 0) →
      idxminGo vs bi bv i < l.length ∧
        (∀ k, k < l.length → l.getD (idxminGo vs bi bv i) 0 ≤ l.getD k 0) ∧
        (∀ k, k < idxminGo vs bi bv i →
          l.getD (idxminGo vs bi bv i) 0 < l.getD k 0) := by
  intro vs
  induction vs with
  | nil =>
    intro bi bv i hil hdrop hbi hbv hmax hfirst
    have hlen : l.length ≤ i := List.drop_eq_nil_iff.mp hdrop
    refine ⟨?_, ?_, ?_⟩
    · show bi < l.length
      omega
    · intro k hk
      show l.getD bi 0 ≤ l.getD k 0
      rw [hbv]
      exact hmax k (by omega)
    · intro k hk
      show l.getD bi 0 < l.getD k 0
      rw [hbv]
      exact hfirst k hk
  | cons v vs' ih =>
    intro bi bv i hil hdrop hbi hbv hmax hfirst
    have hi : i < l.length := by
      rcases Nat.lt_or_ge i l.length with h | h
      · exact h
      · rw [List.drop_eq_nil_iff.mpr h] at hdrop
        exact List.noConfusion hdrop
    have hcons := List.drop_eq_getElem_cons (n := i) (l := l) hi
    rw [hdrop] at hcons
    injection hcons with hv hvs'
    have hgetDi : l.getD i 0 = v := by
      rw [List.getD_eq_getElem?_getD, List.getElem?_eq_getElem hi]
      simp [hv]
    by_cases hlt : v < bv
    · have hrec := ih i v (i + 1) (by omega) hvs'.symm (by omega) hgetDi
        (by
          intro k hk
          rcases Nat.lt_or_ge k i with h | h
          · exact le_trans (le_of_lt hlt) (hmax k h)
          · have hki : k = i := by omega
            subst hki
            exact le_of_eq hgetDi.symm)
        (by
          intro k hk
          exact lt_of_lt_of_le hlt (hmax k hk))
      simpa only [idxminGo, if_pos hlt] using hrec
    · have hrec := ih bi bv (i + 1) (by omega) hvs'.symm (by omega) hbv
        (by
          intro k hk
          rcases Nat.lt_or_ge k i with h | h
          · exact hmax k h
          · have hki : k = i := by omega
            subst hki
            rw [hgetDi]
            omega)
        hfirst
      simpa only [idxminGo, if_neg hlt] using hrec

/-- Reading the closings column through `getD` commutes with `map`. -/
theorem getD_map_closings (df : List Record) (k : Nat) (h : k < df.length) :
    (df.map Record.closings).getD k 0 = (df.getD k default).closings := by
  rw [List.getD_eq_getElem?_getD, List.getD_eq_getElem?_getD,
    List.getElem?_map, List.getElem?_eq_getElem h]
  simp

/-- Claim C7: for every non-empty record set, Best Month (Worst Month) is
the `'%b %y'` label of the record with maximal (minimal) closings, taking
the first occurrence in input order on ties; consequently a single-record
set has Best Month = Worst Month = that record's label. -/
theorem best_worst_month_first_extremum :
    ∀ df : List Record, df ≠ [] →
      ∃ (m : List (String × MetricValue)) (imax imin : Nat),
        calculate_metrics df = some m ∧
        m.lookup "Best Month (Closings)" =
          some (.str (monthLabel (df.getD imax default))) ∧
        m.lookup "Worst Month (Closings)" =
          some (.str (monthLabel (df.getD imin default))) ∧
        imax < df.length ∧
        (∀ k, k < df.length →
          (df.getD k default).closings ≤ (df.getD imax default).closings) ∧
        (∀ k, k < imax →
          (df.getD k default).closings < (df.getD imax default).closings) ∧
        imin < df.length ∧
        (∀ k, k < df.length →
          (df.getD imin default).closings ≤ (df.getD k default).closings) ∧
        (∀ k, k < imin →
          (df.getD imin default).closings < (df.getD k default).closings) ∧
        ∀ r : Record, df = [r] →
          m.lookup "Best Month (Closings)" = some (.str (monthLabel r)) ∧
          m.lookup "Worst Month (Closings)" = some (.str (monthLabel r)) := by
  intro df h
  cases df with
  | nil => exact absurd rfl h
  | cons r rs =>
    have hmaxspec := idxmaxGo_spec ((r :: rs).map Record.closings)
      (rs.map Record.closings) 0 r.closings 1 (by simp) rfl (by omega) rfl
      (by
        intro k hk
        have hk0 : k = 0 := by omega
        subst hk0
        exact le_refl _)
      (by
        intro k hk
        omega)
    have hminspec := idxminGo_spec ((r :: rs).map Record.closings)
      (rs.map Record.closings) 0 r.closings 1 (by simp) rfl (by omega) rfl
      (by
        intro k hk
        have hk0 : k = 0 := by omega
        subst hk0
        exact le_refl _)
      (by
        intro k hk
        omega)
    obtain ⟨ha1, ha2, ha3⟩ := hmaxspec
    obtain ⟨hb1, hb2, hb3⟩ := hminspec
    have hlen : ((r :: rs).map Record.closings).length = (r :: rs).length := by
      simp
    refine ⟨_, idxmaxGo (rs.map Record.closings) 0 r.closings 1,
      idxminGo (rs.map Record.closings) 0 r.closings 1,
      rfl, rfl, rfl, ?_, ?_, ?_, ?_, ?_, ?_, ?_⟩
    · omega
    · intro k hk
      have := ha2 k (by omega)
      rwa [getD_map_closings _ _ hk, getD_map_closings _ _ (by omega)] at this
    · intro k hk
      have := ha3 k hk
      rwa [getD_map_closings _ _ (by omega), getD_map_closings _ _ (by omega)]
        at this
    · omega
    · intro k hk
      have := hb2 k (by omega)
      rwa [getD_map_closings _ _ (by omega), getD_map_closings _ _ hk] at this
    · intro k hk
      have := hb3 k hk
      rwa [getD_map_closings _ _ (by omega), getD_map_closings _ _ (by omega)]
        at this
    · intro r' hr'
      injection hr' with h1 h2
      subst h2
      subst h1
      exact ⟨rfl, rfl⟩

/-- Witness for C7: a two-record set tied at 3 closings; both the maximum
and the minimum resolve to the first record, labelled "Jan 24". -/
theorem best_worst_month_witness :
    (([⟨2024, 1, 10, 5, 3, none⟩, ⟨2024, 2, 20, 6, 3, none⟩] : List Record) ≠ []) ∧
      ∃ (m : List (String × MetricValue)) (imax imin : Nat),
        calculate_metrics [⟨2024, 1, 10, 5, 3, none⟩, ⟨2024, 2, 20, 6, 3, none⟩] =
            some m ∧
          m.lookup "Best Month (Closings)" =
            some (.str (monthLabel
              (([⟨2024, 1, 10, 5, 3, none⟩, ⟨2024, 2, 20, 6, 3, none⟩] :
                List Record).getD imax default))) ∧
          m.lookup "Worst Month (Closings)" =
            some (.str (monthLabel
              (([⟨2024, 1, 10, 5, 3, none⟩, ⟨2024, 2, 20, 6, 3, none⟩] :
                List Record).getD imin default))) ∧
          imax < ([⟨2024, 1, 10, 5, 3, none⟩, ⟨2024, 2, 20, 6, 3, none⟩] :
            List Record).length ∧
          (∀ k, k < ([⟨2024, 1, 10, 5, 3, none⟩, ⟨2024, 2, 20, 6, 3, none⟩] :
              List Record).length →
            (([⟨2024, 1, 10, 5, 3, none⟩, ⟨2024, 2, 20, 6, 3, none⟩] :
              List Record).getD k default).closings ≤
              (([⟨2024, 1, 10, 5, 3, none⟩, ⟨2024, 2, 20, 6, 3, none⟩] :
                List Record).getD imax default).closings) ∧
          (∀ k, k < imax →
            (([⟨2024, 1, 10, 5, 3, none⟩, ⟨2024, 2, 20, 6, 3, none⟩] :
              List Record).getD k default).closings <
              (([⟨2024, 1, 10, 5, 3, none⟩, ⟨2024, 2, 20, 6, 3, none⟩] :
                List Record).getD imax default).closings) ∧
          imin < ([⟨2024, 1, 10, 5, 3, none⟩, ⟨2024, 2, 20, 6, 3, none⟩] :
            List Record).length ∧
          (∀ k, k < ([⟨2024, 1, 10, 5, 3, none⟩, ⟨2024, 2, 20, 6, 3, none⟩] :
              List Record).length →
            (([⟨2024, 1, 10, 5, 3, none⟩, ⟨2024, 2, 20, 6, 3, none⟩] :
              List Record).getD imin default).closings ≤
              (([⟨2024, 1, 10, 5, 3, none⟩, ⟨2024, 2, 20, 6, 3, none⟩] :
                List Record).getD k default).closings) ∧
          (∀ k, k < imin →
            (([⟨2024, 1, 10, 5, 3, none⟩, ⟨2024, 2, 20, 6, 3, none⟩] :
              List Record).getD imin default).closings <
              (([⟨2024, 1, 10, 5, 3, none⟩, ⟨2024, 2, 20, 6, 3, none⟩] :
                List Record).getD k default).closings) ∧
          ∀ r : Record,
            ([⟨2024, 1, 10, 5, 3, none⟩, ⟨2024, 2, 20, 6, 3, none⟩] :
              List Record) = [r] →
            m.lookup "Best Month (Closings)" = some (.str (monthLabel r)) ∧
            m.lookup "Worst Month (Closings)" = some (.str (monthLabel r)) :=
  ⟨by decide, best_worst_month_first_extremum
    [⟨2024, 1, 10, 5, 3, none⟩, ⟨2024, 2, 20, 6, 3, none⟩] (by decide)⟩

/-- The most-significant-first decimal fold, with accumulator. -/
theorem digitsVal_go (l : List Nat) :
    ∀ a : Nat, l.foldl (fun acc d => acc * 10 + d) a =
      a * 10 ^ l.length + Nat.ofDigits 10 l.reverse := by
  induction l with
  | nil =>
    intro a
    simp
  | cons d t ih =>
    intro a
    rw [List.foldl_cons, ih (a * 10 + d), List.reverse_cons,
      Nat.ofDigits_append]
    simp [Nat.ofDigits_singleton]
    ring

/-- `digitsVal` is `Nat.ofDigits` of the little-endian reversal. -/
theorem digitsVal_eq (l : List Nat) : digitsVal l = Nat.ofDigits 10 l.reverse := by
  have h := digitsVal_go l 0
  simpa [digitsVal] using h

/-- `charToDigit` inverts `digitChar` on digit values. -/
theorem charToDigit_digitChar (d : Nat) (h : d < 10) :
    charToDigit (digitChar d) = some d := by
  interval_cases d <;> decide

/-- Parsing the printed digit characters recovers the digit list. -/
theorem mapM_charToDigit_digitChar (ds : List Nat) (h : ∀ d ∈ ds, d < 10) :
    (ds.map digitChar).mapM charToDigit = some ds := by
  induction ds with
  | nil => rfl
  | cons d t ih =>
    rw [List.map_cons, List.mapM_cons, charToDigit_digitChar d (h d (by simp)),
      ih (fun x hx => h x (by simp [hx]))]
    rfl

/-- Decimal printing then parsing is the identity on naturals. -/
theorem charsToNat_natToChars (n : Nat) : charsToNat (natToChars n) = some n := by
  by_cases h0 : n = 0
  · subst h0
    decide
  · have hne : Nat.digits 10 n ≠ [] := Nat.digits_ne_nil_iff_ne_zero.mpr h0
    rw [natToChars, if_neg h0, charsToNat]
    rw [if_neg (by simp [hne])]
    rw [← List.map_reverse,
      mapM_charToDigit_digitChar _
        (fun d hd => Nat.digits_lt_base (by norm_num) (List.mem_reverse.mp hd))]
    rw [Option.map_some']
    rw [digitsVal_eq, List.reverse_reverse, Nat.ofDigits_digits]

/-- Printed naturals are never the empty character list. -/
theorem natToChars_ne_nil (n : Nat) : natToChars n ≠ [] := by
  by_cases h0 : n = 0
  · subst h0
    decide
  · rw [natToChars, if_neg h0]
    simp [Nat.digits_ne_nil_iff_ne_zero.mpr h0]

/-- Printed naturals contain no dash. -/
theorem dash_not_mem_natToChars (n : Nat) : '-' ∉ natToChars n := by
  by_cases h0 : n = 0
  · subst h0
    decide
  · rw [natToChars, if_neg h0]
    intro hmem
    rw [List.mem_reverse] at hmem
    obtain ⟨d, hd, hdc⟩ := List.mem_map.mp hmem
    have hd10 : d < 10 := Nat.digits_lt_base (by norm_num) hd
    have hinv := charToDigit_digitChar d hd10
    rw [hdc] at hinv
    have hnone : charToDigit '-' = none := by decide
    rw [hnone] at hinv
    exact Option.noConfusion hinv

/-- `splitDash` splits at the first dash. -/
theorem splitDash_append (a b : List Char) (h : '-' ∉ a) :
    splitDash (a ++ '-' :: b) = some (a, b) := by
  induction a with
  | nil => rfl
  | cons c cs ih =>
    have hc : c ≠ '-' := fun hh => h (by simp [hh])
    rw [List.cons_append, splitDash, if_neg hc,
      ih (fun hm => h (List.mem_cons_of_mem _ hm))]
    rfl

/-- `pd.to_datetime` inverts the `month` cell printed by `to_csv` for any
valid calendar month. -/
theorem parseMonthCell_monthCell (r : Record) (h1 : 1 ≤ r.mon)
    (h2 : r.mon ≤ 12) :
    parseMonthCell (monthCell r) = some (r.year, r.mon) := by
  have hdata : (monthCell r).data = natToChars r.year ++ '-' :: natToChars r.mon :=
    rfl
  rw [parseMonthCell, hdata,
    splitDash_append _ _ (dash_not_mem_natToChars r.year)]
  simp only [charsToNat_natToChars]
  rw [if_pos ⟨h1, h2⟩]

/-- Reading back a printed `cost` cell recovers the optional value. -/
theorem parseCostCell_costCell (c : Option Nat) :
    parseCostCell (costCell c) = some c := by
  cases c with
  | none => rfl
  | some v =>
    have hne : costCell (some v) ≠ "" := by
      intro hh
      exact natToChars_ne_nil v (congrArg String.data hh)
    rw [parseCostCell, if_neg hne]
    have hdata : (costCell (some v)).data = natToChars v := rfl
    rw [hdata, charsToNat_natToChars]
    rfl

/-- `pd.read_csv` inverts the printed row of `to_csv`. -/
theorem readRow_to_csv_row (r : Record) :
    readRow [monthCell r, ⟨natToChars r.leads⟩, ⟨natToChars r.appointments⟩,
        ⟨natToChars r.closings⟩, costCell r.cost] =
      .ok ⟨monthCell r, r.leads, r.appointments, r.closings, r.cost⟩ := by
  have hl : charsToNat (String.data ⟨natToChars r.leads⟩) = some r.leads :=
    charsToNat_natToChars r.leads
  have ha : charsToNat (String.data ⟨natToChars r.appointments⟩) =
      some r.appointments := charsToNat_natToChars r.appointments
  have hc : charsToNat (String.data ⟨natToChars r.closings⟩) =
      some r.closings := charsToNat_natToChars r.closings
  rw [readRow, hl, ha, hc, parseCostCell_costCell]

/-- Row-wise round trip of the CSV body. -/
theorem readRows_to_csv (df : List Record) :
    readRows (df.map fun r =>
        [monthCell r, ⟨natToChars r.leads⟩, ⟨natToChars r.appointments⟩,
         ⟨natToChars r.closings⟩, costCell r.cost]) =
      .ok (df.map fun r =>
        (⟨monthCell r, r.leads, r.appointments, r.closings, r.cost⟩ : RawRow)) := by
  induction df with
  | nil => rfl
  | cons r rs ih =>
    rw [List.map_cons, List.map_cons, readRows, readRow_to_csv_row, ih]

/-- `pd.to_datetime` succeeds on a column of printed month cells and
recovers every (year, month) pair. -/
theorem to_datetime_monthCells (df : List Record)
    (h : ∀ r ∈ df, 1 ≤ r.mon ∧ r.mon ≤ 12) :
    to_datetime (df.map fun r => monthCell r) =
      .ok (df.map fun r => (r.year, r.mon)) := by
  induction df with
  | nil => rfl
  | cons r rs ih =>
    rw [List.map_cons, List.map_cons, to_datetime,
      parseMonthCell_monthCell r (h r (by simp)).1 (h r (by simp)).2,
      ih (fun x hx => h x (by simp [hx]))]

/-- Zipping the converted month column back onto the raw rows restores the
original records. -/
theorem mkRecords_roundtrip (df : List Record) :
    mkRecords (df.map fun r => (r.year, r.mon))
      (df.map fun r =>
        (⟨monthCell r, r.leads, r.appointments, r.closings, r.cost⟩ : RawRow)) =
      df := by
  induction df with
  | nil => rfl
  | cons r rs ih =>
    simp only [List.map_cons, mkRecords, List.zipWith_cons_cons] at ih ⊢
    rw [ih]

/-- Claim C9: serializing with `to_csv` and re-parsing through the upload
load path reproduces the record set field-for-field (including the
optional cost column, whose missing values round-trip as missing). -/
theorem csv_round_trip :
    ∀ df : List Record, (∀ r ∈ df, 1 ≤ r.mon ∧ r.mon ≤ 12) →
      loadPath (to_csv df) = .ok df := by
  intro df h
  have h2 : to_datetime ((df.map fun r =>
      (⟨monthCell r, r.leads, r.appointments, r.closings, r.cost⟩ : RawRow)).map
        RawRow.monthStr) = .ok (df.map fun r => (r.year, r.mon)) := by
    rw [List.map_map]
    exact to_datetime_monthCells df h
  rw [to_csv]
  simp only [loadPath, eq_self_iff_true, if_true, readRows_to_csv, h2,
    mkRecords_roundtrip]

/-- Witness for C9: round trip of a two-record set, one record with a
cost value and one with the cost missing. -/
theorem csv_round_trip_witness :
    (∀ r ∈ ([⟨2024, 1, 100, 50, 25, some 0⟩,
        ⟨2023, 12, 90, 40, 20, none⟩] : List Record),
        1 ≤ r.mon ∧ r.mon ≤ 12) ∧
      loadPath (to_csv [⟨2024, 1, 100, 50, 25, some 0⟩,
          ⟨2023, 12, 90, 40, 20, none⟩]) =
        .ok [⟨2024, 1, 100, 50, 25, some 0⟩, ⟨2023, 12, 90, 40, 20, none⟩] :=
  ⟨by decide, csv_round_trip _ (by decide)⟩

/-- `pd.read_csv` success parses every row: the output has one raw row
per input row. -/
theorem readRows_length :
    ∀ (rows : List (List String)) (raws : List RawRow),
      readRows rows = .ok raws → raws.length = rows.length := by
  intro rows
  induction rows with
  | nil =>
    intro raws h
    simp only [readRows] at h
    injection h with h'
    rw [← h']
    rfl
  | cons row rest ih =>
    intro raws h
    simp only [readRows] at h
    split at h
    · injection h with h'
      rw [← h']
      simp only [List.length_cons]
      rename_i r rs heq1 heq2
      rw [ih rs heq2]
    · exact Except.noConfusion h
    · exact Except.noConfusion h

/-- `pd.to_datetime` success converts every value: lengths agree. -/
theorem to_datetime_length :
    ∀ (ss : List String) (ms : List (Nat × Nat)),
      to_datetime ss = .ok ms → ms.length = ss.length := by
  intro ss
  induction ss with
  | nil =>
    intro ms h
    simp only [to_datetime] at h
    injection h with h'
    rw [← h']
    rfl
  | cons s rest ih =>
    intro ms h
    simp only [to_datetime] at h
    split at h
    · injection h with h'
      rw [← h']
      simp only [List.length_cons]
      rename_i ym ms' heq1 heq2
      rw [ih ms' heq2]
    · exact Except.noConfusion h
    · exact Except.noConfusion h

/-- One unparseable month value makes the whole `pd.to_datetime`
conversion raise. -/
theorem to_datetime_error_of_unparseable :
    ∀ ss : List String, (∃ s ∈ ss, parseMonthCell s = none) →
      ∃ e, to_datetime ss = .error e := by
  intro ss
  induction ss with
  | nil =>
    intro h
    obtain ⟨s, hs, -⟩ := h
    exact absurd hs (List.not_mem_nil s)
  | cons s rest ih =>
    intro h
    by_cases hp : parseMonthCell s = none
    · refine ⟨"DataLoadError: unparseable month", ?_⟩
      simp only [to_datetime, hp]
    · obtain ⟨s', hs', hp'⟩ := h
      rcases List.mem_cons.mp hs' with rfl | hmem
      · exact absurd hp' hp
      · obtain ⟨e, he⟩ := ih ⟨s', hmem, hp'⟩
        cases hps : parseMonthCell s with
        | none => exact absurd hps hp
        | some ym =>
          refine ⟨e, ?_⟩
          simp only [to_datetime, hps, he]

/-- Counterexample to claim C6: a two-row upload whose second row has an
unparseable month does not load the one parseable row — the whole load
fails, because `pd.to_datetime` is called with its default
`errors='raise'`. -/
theorem unparseable_month_aborts_load :
    loadPath [["month", "leads", "appointments", "closings", "cost"],
        ["2024-1", "10", "5", "2", ""], ["garbage", "10", "5", "2", ""]] =
      .error "DataLoadError: unparseable month" ∧
      ∀ recs : List Record,
        loadPath [["month", "leads", "appointments", "closings", "cost"],
          ["2024-1", "10", "5", "2", ""], ["garbage", "10", "5", "2", ""]] ≠
        .ok recs :=
  ⟨rfl, fun _recs h => Except.noConfusion ((rfl :
    loadPath [["month", "leads", "appointments", "closings", "cost"],
        ["2024-1", "10", "5", "2", ""], ["garbage", "10", "5", "2", ""]] =
      .error "DataLoadError: unparseable month").symm.trans h)⟩

/-- Claim C6 (amended): the load path never drops rows — a successful load
keeps every uploaded data row — and any unparseable month value makes the
whole conversion (and hence the load) fail. -/
theorem load_aborts_never_drops :
    (∀ (rows : List (List String)) (recs : List Record),
        loadPath (csvHeader :: rows) = .ok recs → recs.length = rows.length) ∧
      ∀ ss : List String, (∃ s ∈ ss, parseMonthCell s = none) →
        ∃ e, to_datetime ss = .error e := by
  constructor
  · intro rows recs h
    simp only [loadPath, eq_self_iff_true, if_true] at h
    split at h
    · exact Except.noConfusion h
    · rename_i raws heq1
      split at h
      · exact Except.noConfusion h
      · rename_i ms heq2
        injection h with h'
        rw [← h']
        rw [mkRecords, List.length_zipWith, to_datetime_length _ _ heq2,
          List.length_map, readRows_length _ _ heq1]
        simp
  · exact to_datetime_error_of_unparseable

/-- Witness for C6 (amended): a one-row table loads with one record, and
the singleton unparseable column raises. -/
theorem load_aborts_never_drops_witness :
    loadPath (csvHeader :: [["2024-1", "10", "5", "2", ""]]) =
        .ok [⟨2024, 1, 10, 5, 2, none⟩] ∧
      ([⟨2024, 1, 10, 5, 2, none⟩] : List Record).length =
        [["2024-1", "10", "5", "2", ""]].length ∧
      (∃ s ∈ ["garbage"], parseMonthCell s = none) ∧
      ∃ e, to_datetime ["garbage"] = .error e :=
  ⟨rfl,
    load_aborts_never_drops.1 [["2024-1", "10", "5", "2", ""]] _ rfl,
    by decide,
    load_aborts_never_drops.2 ["garbage"] (by decide)⟩
